import Mathlib

/-!
Shallow embedding of `src/jnf_geometry.h` (namespace `jnf`, inner namespace
`jnf::geometry`): 2D vectors, segments, axis-aligned rectangles and circles,
with the `contains` / `overlaps` / `intersects` predicate families, the
closest-point query and the accessors the specification talks about.

The C++ numeric template parameter `T` is instantiated at the exact rationals
`ℚ`; every operation the claims touch (add, sub, scalar mul, dot, cross,
squared magnitude, clamp, division) is exact rational arithmetic, so `ℚ` is a
faithful model of the source's real-valued formulas away from IEEE special
values.  The two places where the source's unguarded floating-point division
can hit a zero denominator (`overlaps(line, line)` and the projection in
`contains(line, vec2)`) are modelled explicitly: an IEEE division by zero
yields `±inf` or `NaN`, and every subsequent range comparison (`u >= 0`,
`u <= 1`) on such a value is false, so those branches return `false`; the
embeddings below encode that outcome with an explicit zero test, commented at
each site.  A separate `Option`-valued evaluator records whether an unguarded
division by zero is actually reached.

Note on the source text: the C++ `circle` struct declares its members as
`center` and `radius`, but every function in the header accesses the center
as `c.pos`; the embedding uses the field name `pos` to match the accessor
sites the claims are about.
-/

namespace jnf

/-- Source tolerance `constexpr double eps = 1e-3`. -/
def eps : ℚ := 1 / 1000

/-- Source `vec2<T>` at `T = ℚ`. -/
structure vec2 where
  x : ℚ
  y : ℚ
deriving DecidableEq

namespace vec2

/-- Component-wise subtraction, `vec2::operator-`. -/
def sub (a b : vec2) : vec2 := ⟨a.x - b.x, a.y - b.y⟩

/-- Component-wise addition (used as `operator+` throughout the header). -/
def add (a b : vec2) : vec2 := ⟨a.x + b.x, a.y + b.y⟩

/-- Scalar multiplication (used as `operator*` throughout the header). -/
def smul (t : ℚ) (a : vec2) : vec2 := ⟨t * a.x, t * a.y⟩

/-- Source `vec2::mag2()`, the squared magnitude. -/
def mag2 (a : vec2) : ℚ := a.x * a.x + a.y * a.y

/-- Source `vec2::dot`. -/
def dot (a b : vec2) : ℚ := a.x * b.x + a.y * b.y

/-- Source `vec2::cross`, the scalar z-component of the 3D cross product. -/
def cross (a b : vec2) : ℚ := a.x * b.y - a.y * b.x

end vec2

namespace geometry

/-- Source `geometry::line<T>` at `T = ℚ` (a directed segment `start → end`;
the C++ field `end` is a Lean keyword, hence the guillemets). -/
structure line where
  start : vec2
  «end» : vec2
deriving DecidableEq

namespace line

/-- Source `line::vec()` = `end - start`. -/
def vec (l : line) : vec2 := l.«end».sub l.start

/-- Source `line::length2()` = squared length. -/
def length2 (l : line) : ℚ := l.vec.mag2

/-- Source `line::point(dist)` = `start + (end - start) * dist`. -/
def point (l : line) (dist : ℚ) : vec2 := l.start.add (vec2.smul dist l.vec)

end line

/-- Source `geometry::rect<T>` at `T = ℚ`. -/
structure rect where
  pos : vec2
  size : vec2
deriving DecidableEq

namespace rect

/-- Source `rect::top()`. -/
def top (r : rect) : line := ⟨r.pos, ⟨r.pos.x + r.size.x, r.pos.y⟩⟩

/-- Source `rect::bottom()`. -/
def bottom (r : rect) : line := ⟨⟨r.pos.x, r.pos.y + r.size.y⟩, r.pos.add r.size⟩

/-- Source `rect::left()`. -/
def left (r : rect) : line := ⟨r.pos, ⟨r.pos.x, r.pos.y + r.size.y⟩⟩

/-- Source `rect::right()`. -/
def right (r : rect) : line := ⟨⟨r.pos.x + r.size.x, r.pos.y⟩, r.pos.add r.size⟩

/-- Source `rect::side(i)`: `switch (i % 4)` with cases 0..3 and a default
returning a value-initialized (degenerate) line.  C++ `%` on `int32_t` is
the truncated remainder, `Int.tmod`: for a negative `i` that is not a
multiple of 4 the selector is negative and falls through to the `default:`
branch, while a negative multiple of 4 (e.g. `-4 % 4 == 0`) still selects
the top edge. -/
def side (r : rect) (i : ℤ) : line :=
  if Int.tmod i 4 = 0 then r.top
  else if Int.tmod i 4 = 1 then r.right
  else if Int.tmod i 4 = 2 then r.bottom
  else if Int.tmod i 4 = 3 then r.left
  else ⟨⟨0, 0⟩, ⟨0, 0⟩⟩

/-- Source `rect::area()` = `size.x * size.y`. -/
def area (r : rect) : ℚ := r.size.x * r.size.y

/-- Source `rect::perim()` = `T(1) * (size.x + size.y)`, exactly as written in the
source (the factor is `1`, not `2`). -/
def perim (r : rect) : ℚ := 1 * (r.size.x + r.size.y)

end rect

/-- Source `geometry::circle<T>` at `T = ℚ`; the header's functions access the
center as `c.pos` (see the file comment). -/
structure circle where
  pos : vec2
  radius : ℚ
deriving DecidableEq

/-- Source `std::clamp(v, lo, hi)`. -/
def clampq (v lo hi : ℚ) : ℚ := if v < lo then lo else if hi < v then hi else v

/-- Source `closest(line, vec2)`:
`l.start + std::clamp(d.dot(p - l.start) / l.length2(), 0, 1) * d`. -/
def closestLineVec (l : line) (p : vec2) : vec2 :=
  l.start.add (vec2.smul (clampq ((l.vec.dot (p.sub l.start)) / l.length2) 0 1) l.vec)

/-- Source `contains(vec2, vec2)`: squared distance below `eps`. -/
def containsVecVec (p1 p2 : vec2) : Bool :=
  decide ((p1.sub p2).mag2 < eps)

/-- Source `contains(line, vec2)`: collinearity within `eps`, then projection
parameter `u = vec·(p-start) / length2` in `[0,1]`.  For a zero-length
segment the source's `double` division is `0/0 = NaN` and both IEEE
comparisons `u >= 0`, `u <= 1` are false, so the result is `false`; the
explicit `length2 = 0` test encodes exactly that outcome. -/
def containsLineVec (l : line) (p : vec2) : Bool :=
  let d := (p.x - l.start.x) * (l.«end».y - l.start.y)
      - (p.y - l.start.y) * (l.«end».x - l.start.x)
  if |d| < eps then
    if l.length2 = 0 then false
    else
      let u := (l.vec.dot (p.sub l.start)) / l.length2
      decide (0 ≤ u ∧ u ≤ 1)
  else false

/-- Source `contains(rect, vec2)`: inclusive bounds on all four sides. -/
def containsRectVec (r : rect) (p : vec2) : Bool :=
  decide (p.x ≥ r.pos.x ∧ p.y ≥ r.pos.y
    ∧ p.x ≤ r.pos.x + r.size.x ∧ p.y ≤ r.pos.y + r.size.y)

/-- Source `contains(circle, vec2)`: strict `(c.pos - p).mag2() < radius²`. -/
def containsCircleVec (c : circle) (p : vec2) : Bool :=
  decide ((c.pos.sub p).mag2 < c.radius * c.radius)

/-- Source `contains(rect, line)`: both endpoints inside the rect. -/
def containsRectLine (r : rect) (l : line) : Bool :=
  containsRectVec r l.start && containsRectVec r l.«end»

/-- Source `contains(rect, rect)`: inclusive on the near sides, strict on the far
sides, exactly as in the source. -/
def containsRectRect (r1 r2 : rect) : Bool :=
  decide (r2.pos.x ≥ r1.pos.x ∧ r2.pos.y ≥ r1.pos.y
    ∧ r2.pos.x + r2.size.x < r1.pos.x + r1.size.x
    ∧ r2.pos.y + r2.size.y < r1.pos.y + r1.size.y)

/-- Source `contains(circle, circle)`: `(c1.pos - c2.pos).mag2() ≤ (r1 - r2)²`. -/
def containsCircleCircle (c1 c2 : circle) : Bool :=
  decide ((c1.pos.sub c2.pos).mag2
    ≤ (c1.radius - c2.radius) * (c1.radius - c2.radius))

/-- Source `overlaps(line, line)`: `d = l2.vec × l1.vec`, then
`u1 = l2.vec × (l1.start - l2.start) / d`, `u2 = l1.vec × (l1.start - l2.start) / d`,
and the result is `u1 ∈ [0,1] ∧ u2 ∈ [0,1]`.  The source divides by `d`
with no zero guard; when `d == 0` the float quotients are `±inf` or `NaN`
and all four IEEE range comparisons are false, so the result is `false` —
the explicit `d = 0` branch encodes that outcome. -/
def overlapsLineLine (l1 l2 : line) : Bool :=
  let d := l2.vec.cross l1.vec
  if d = 0 then false
  else
    let u1 := (l2.vec.cross (l1.start.sub l2.start)) / d
    let u2 := (l1.vec.cross (l1.start.sub l2.start)) / d
    decide (0 ≤ u1 ∧ u1 ≤ 1 ∧ 0 ≤ u2 ∧ u2 ≤ 1)

/-- Division made partial: `none` exactly when the denominator is zero. -/
def qdivChecked (a b : ℚ) : Option ℚ :=
  if b = 0 then none else some (a / b)

/-- Source `overlaps(line, line)` re-traced with the partial division `qdivChecked`:
the source computes both quotients unconditionally, so this evaluator
returns `none` — the division by zero is reached — exactly when `d = 0`. -/
def overlapsLineLineChecked (l1 l2 : line) : Option Bool :=
  let d := l2.vec.cross l1.vec
  match qdivChecked (l2.vec.cross (l1.start.sub l2.start)) d,
      qdivChecked (l1.vec.cross (l1.start.sub l2.start)) d with
  | some u1, some u2 => some (decide (0 ≤ u1 ∧ u1 ≤ 1 ∧ 0 ≤ u2 ∧ u2 ≤ 1))
  | _, _ => none

/-- Source `overlaps(rect, line)`: any of the four edges overlaps the segment. -/
def overlapsRectLine (r : rect) (l : line) : Bool :=
  overlapsLineLine r.top l || overlapsLineLine r.bottom l
    || overlapsLineLine r.left l || overlapsLineLine r.right l

/-- Source `overlaps(rect, rect)`: strict `<` against the far sides of `r2`,
non-strict `>=` against the near sides, exactly as in the source. -/
def overlapsRectRect (r1 r2 : rect) : Bool :=
  decide (r1.pos.x < r2.pos.x + r2.size.x ∧ r1.pos.x + r1.size.x ≥ r2.pos.x
    ∧ r1.pos.y < r2.pos.y + r2.size.y ∧ r1.pos.y + r1.size.y ≥ r2.pos.y)

/-- Source `overlaps(circle, circle)`: `(c1.pos - c2.pos).mag2() ≤ (r1 + r2)²`. -/
def overlapsCircleCircle (c1 c2 : circle) : Bool :=
  decide ((c1.pos.sub c2.pos).mag2
    ≤ (c1.radius + c2.radius) * (c1.radius + c2.radius))

/-- Source `intersects(line, line)`: guarded determinant `rd = l1.vec × l2.vec`,
parameters `rn` and `sn` exactly as written in the source — note that the
`sn` numerator's second product is `(l1.end.y - l2.start.y) * (l1.start.x -
l2.start.x)`, mixing an `l1` endpoint with `l2.start`, verbatim from the
header. -/
def intersectsLineLine (l1 l2 : line) : List vec2 :=
  let rd := l1.vec.cross l2.vec
  if rd = 0 then []
  else
    let rn := ((l2.«end».x - l2.start.x) * (l1.start.y - l2.start.y)
        - (l2.«end».y - l2.start.y) * (l1.start.x - l2.start.x)) / rd
    let sn := ((l1.«end».x - l1.start.x) * (l1.start.y - l2.start.y)
        - (l1.«end».y - l2.start.y) * (l1.start.x - l2.start.x)) / rd
    if rn < 0 ∨ rn > 1 ∨ sn < 0 ∨ sn > 1 then []
    else [l1.start.add (vec2.smul rn (l1.«end».sub l1.start))]

/-- Source `intersects(rect, vec2)`: `{p}` iff `p` is contained in one of the four
boundary edge segments, else empty. -/
def intersectsRectVec (r : rect) (p : vec2) : List vec2 :=
  if containsLineVec r.top p || containsLineVec r.bottom p
      || containsLineVec r.left p || containsLineVec r.right p then [p]
  else []

end geometry

end jnf

namespace jnf.geometry

/-- Source `std::clamp` into `[lo, hi]` lands in `[lo, hi]` whenever `lo ≤ hi`. -/
theorem clampq_mem (v lo hi : ℚ) (h : lo ≤ hi) :
    lo ≤ clampq v lo hi ∧ clampq v lo hi ≤ hi := by
  unfold clampq
  split_ifs with h1 h2 <;> constructor <;> linarith

/-- Claim C1: the spec requires `overlaps(A,B) == overlaps(B,A)` for every
shape pair, in particular for rects.  The code's `overlaps(rect, rect)` tests
`r1.pos.x < r2.pos.x + r2.size.x` (strict) against `r1.pos.x + r1.size.x >=
r2.pos.x` (non-strict), so two unit rects touching along the shared edge
`x = 1` overlap in one argument order and not in the other. -/
theorem overlaps_rect_rect_not_symmetric_eval :
    overlapsRectRect ⟨⟨0, 0⟩, ⟨1, 1⟩⟩ ⟨⟨1, 0⟩, ⟨1, 1⟩⟩ = true ∧
    overlapsRectRect ⟨⟨1, 0⟩, ⟨1, 1⟩⟩ ⟨⟨0, 0⟩, ⟨1, 1⟩⟩ = false := by
  constructor <;> norm_num [overlapsRectRect]

/-- Claim C2: the spec's perimeter is `2*(size.x + size.y)`, so a rect of
size `(2,2)` should have perimeter `8`; the source's `rect::perim()` is
`T(1) * (size.x + size.y)` and returns `4`. -/
theorem perim_omits_factor_two_eval :
    rect.perim ⟨⟨0, 0⟩, ⟨2, 2⟩⟩ = 4 ∧ (4 : ℚ) ≠ 2 * (2 + 2) := by
  constructor
  · norm_num [rect.perim]
  · norm_num

/-- Claim C3: on the spec's example the code does return the crossing point
`(1,1)`, but the `sn` numerator's typo (`l1.end.y - l2.start.y`) makes the
second gating parameter wrong: for the disjoint segments `(3,4)-(6,4)` and
`(0,0)-(1,1)` the code returns the point `(4,4)` even though the two segments
share no point at all (every point of the first has `y = 4`, every point of
the second has `y ≤ 1`). -/
theorem intersects_line_line_wrong_param_eval :
    intersectsLineLine ⟨⟨0, 0⟩, ⟨2, 2⟩⟩ ⟨⟨0, 2⟩, ⟨2, 0⟩⟩ = [⟨1, 1⟩] ∧
    intersectsLineLine ⟨⟨3, 4⟩, ⟨6, 4⟩⟩ ⟨⟨0, 0⟩, ⟨1, 1⟩⟩ = [⟨4, 4⟩] ∧
    (∀ s t : ℚ, 0 ≤ s → s ≤ 1 → 0 ≤ t → t ≤ 1 →
      line.point ⟨⟨3, 4⟩, ⟨6, 4⟩⟩ s ≠ line.point ⟨⟨0, 0⟩, ⟨1, 1⟩⟩ t) := by
  refine ⟨?_, ?_, ?_⟩
  · norm_num [intersectsLineLine, line.vec, vec2.cross, vec2.sub, vec2.smul, vec2.add]
  · norm_num [intersectsLineLine, line.vec, vec2.cross, vec2.sub, vec2.smul, vec2.add]
  · intro s t _ _ _ ht1 h
    simp only [line.point, line.vec, vec2.add, vec2.smul, vec2.sub, vec2.mk.injEq] at h
    obtain ⟨-, hy⟩ := h
    norm_num at hy
    linarith

theorem intersects_line_line_wrong_param_eval_witness :
    (0 : ℚ) ≤ 0 ∧ (0 : ℚ) ≤ 1 ∧
    line.point ⟨⟨3, 4⟩, ⟨6, 4⟩⟩ 0 ≠ line.point ⟨⟨0, 0⟩, ⟨1, 1⟩⟩ 0 :=
  ⟨le_refl 0, by norm_num,
    intersects_line_line_wrong_param_eval.2.2 0 0 (by norm_num) (by norm_num)
      (by norm_num) (by norm_num)⟩

/-- Claim C4: `contains(rect, rect)` compares the far sides with a strict
`<`, so no rect contains itself: for the unit rect `r`, `contains(r, r)` is
`false`, contradicting "every point of B lies within closed A". -/
theorem contains_rect_self_false_eval :
    containsRectRect ⟨⟨0, 0⟩, ⟨1, 1⟩⟩ ⟨⟨0, 0⟩, ⟨1, 1⟩⟩ = false := by
  norm_num [containsRectRect]

/-- Claim C5 (counterexample): C++ `%` is the truncated remainder, so for
`i = -1` the switch selector is `-1` and `side` returns the
value-initialized degenerate segment, not the left edge that `edge(-1 mod 4)
= edge(3)` denotes. -/
theorem side_negative_index_cex :
    rect.side ⟨⟨0, 0⟩, ⟨1, 1⟩⟩ (-1) ≠ rect.side ⟨⟨0, 0⟩, ⟨1, 1⟩⟩ ((-1) % 4) := by
  have h1 : Int.tmod (-1) 4 = -1 := by decide
  have h2 : ((-1 : ℤ) % 4) = 3 := by decide
  have h3 : Int.tmod 3 4 = 3 := by decide
  norm_num [rect.side, h1, h2, h3, rect.left]

/-- Claim C5 (amended): for every nonnegative index `i`, `side(i)` equals
`side(i mod 4)`, and indices 0..3 select top, right, bottom, left in the
fixed winding order; the identity also holds at the negative multiple of
four `i = -4`, whose C++ truncated remainder is `0` (the top edge), so only
negative indices with a negative remainder — such as the counterexample's
`i = -1` — escape the wrap-around. -/
theorem side_mod_four_nonneg (r : rect) (i : ℤ) (h : 0 ≤ i) :
    r.side i = r.side (i % 4) ∧
    r.side 0 = r.top ∧ r.side 1 = r.right ∧ r.side 2 = r.bottom ∧
    r.side 3 = r.left ∧ r.side (-4) = r.side ((-4) % 4) := by
  have h4 : (0 : ℤ) ≤ 4 := by norm_num
  have e1 : Int.tmod i 4 = i % 4 :=
    Int.tmod_eq_emod h h4
  have e2 : Int.tmod (i % 4) 4 = i % 4 := by
    rw [Int.tmod_eq_emod (Int.emod_nonneg i (by norm_num)) h4,
      Int.emod_emod_of_dvd i dvd_rfl]
  refine ⟨?_, ?_, ?_, ?_, ?_, ?_⟩
  · unfold rect.side
    rw [e1, e2]
  · have : Int.tmod 0 4 = 0 := by decide
    simp [rect.side, this]
  · have : Int.tmod 1 4 = 1 := by decide
    simp [rect.side, this]
  · have : Int.tmod 2 4 = 2 := by decide
    simp [rect.side, this]
  · have : Int.tmod 3 4 = 3 := by decide
    simp [rect.side, this]
  · have hm : Int.tmod (-4) 4 = 0 := by decide
    have he : ((-4 : ℤ) % 4) = 0 := by decide
    have h0 : Int.tmod 0 4 = 0 := by decide
    simp [rect.side, hm, he, h0]

theorem side_mod_four_nonneg_witness :
    (0 : ℤ) ≤ 5 ∧
    rect.side ⟨⟨0, 0⟩, ⟨1, 1⟩⟩ 5 = rect.side ⟨⟨0, 0⟩, ⟨1, 1⟩⟩ (5 % 4) :=
  ⟨by norm_num, (side_mod_four_nonneg ⟨⟨0, 0⟩, ⟨1, 1⟩⟩ 5 (by norm_num)).1⟩

/-- Claim C6 (counterexample): for the parallel horizontal segments
`(0,0)-(1,0)` and `(0,1)-(1,1)` the denominator `d` is zero, yet the source
divides by `d` unconditionally: re-tracing the body with division made
partial shows the division by zero is reached (`none`). -/
theorem overlaps_parallel_divzero_cex :
    vec2.cross (line.vec ⟨⟨0, 1⟩, ⟨1, 1⟩⟩) (line.vec ⟨⟨0, 0⟩, ⟨1, 0⟩⟩) = 0 ∧
    overlapsLineLineChecked ⟨⟨0, 0⟩, ⟨1, 0⟩⟩ ⟨⟨0, 1⟩, ⟨1, 1⟩⟩ = Option.none := by
  constructor
  · norm_num [line.vec, vec2.cross, vec2.sub]
  · norm_num [overlapsLineLineChecked, qdivChecked, line.vec, vec2.cross, vec2.sub]

/-- Claim C6 (amended): whenever the direction cross product `d` is zero,
`overlaps(line, line)` does return `false` (the IEEE quotients `±inf`/`NaN`
fail every range comparison), but the division by `d` does occur — the
body evaluated with partial division aborts (`none`) on every such pair. -/
theorem overlaps_parallel_false (l1 l2 : line)
    (h : (l2.vec).cross (l1.vec) = 0) :
    overlapsLineLine l1 l2 = false ∧
    overlapsLineLineChecked l1 l2 = Option.none := by
  constructor
  · simp [overlapsLineLine, h]
  · simp [overlapsLineLineChecked, qdivChecked, h]

theorem overlaps_parallel_false_witness :
    vec2.cross (line.vec ⟨⟨2, 3⟩, ⟨3, 3⟩⟩) (line.vec ⟨⟨0, 0⟩, ⟨4, 0⟩⟩) = 0 ∧
    overlapsLineLine ⟨⟨0, 0⟩, ⟨4, 0⟩⟩ ⟨⟨2, 3⟩, ⟨3, 3⟩⟩ = false :=
  ⟨by norm_num [line.vec, vec2.cross, vec2.sub],
    (overlaps_parallel_false ⟨⟨0, 0⟩, ⟨4, 0⟩⟩ ⟨⟨2, 3⟩, ⟨3, 3⟩⟩
      (by norm_num [line.vec, vec2.cross, vec2.sub])).1⟩

/-- Claim C7: containment does not imply overlap for every implemented pair:
the segment `(4,5)-(6,5)` lies strictly inside the rect `(0,0)×(10,10)`
(`contains` is true), but `overlaps(rect, line)` only tests the four edges
and each per-edge test fails, so `overlaps` is false.  The claim's
"in particular" case does hold: for circles with nonnegative radii,
`contains(c1,c2)` implies `overlaps(c1,c2)`. -/
theorem contains_not_imp_overlaps_eval :
    (containsRectLine ⟨⟨0, 0⟩, ⟨10, 10⟩⟩ ⟨⟨4, 5⟩, ⟨6, 5⟩⟩ = true ∧
     overlapsRectLine ⟨⟨0, 0⟩, ⟨10, 10⟩⟩ ⟨⟨4, 5⟩, ⟨6, 5⟩⟩ = false) ∧
    (∀ c1 c2 : circle, 0 ≤ c1.radius → 0 ≤ c2.radius →
      containsCircleCircle c1 c2 = true → overlapsCircleCircle c1 c2 = true) := by
  refine ⟨⟨?_, ?_⟩, ?_⟩
  · norm_num [containsRectLine, containsRectVec]
  · norm_num [overlapsRectLine, overlapsLineLine, rect.top, rect.bottom, rect.left,
      rect.right, line.vec, vec2.cross, vec2.sub, vec2.add]
  · intro c1 c2 h1 h2 hc
    simp only [containsCircleCircle, decide_eq_true_eq] at hc
    simp only [overlapsCircleCircle, decide_eq_true_eq]
    nlinarith [mul_nonneg h1 h2]

theorem contains_not_imp_overlaps_eval_witness :
    (0 : ℚ) ≤ 1 ∧ overlapsCircleCircle ⟨⟨0, 0⟩, 1⟩ ⟨⟨0, 0⟩, 1⟩ = true :=
  ⟨by norm_num,
    contains_not_imp_overlaps_eval.2 ⟨⟨0, 0⟩, 1⟩ ⟨⟨0, 0⟩, 1⟩ (by norm_num)
      (by norm_num)
      (by norm_num [containsCircleCircle, vec2.sub, vec2.mag2])⟩

/-- Claim C8: `contains(circle, point)` is the strict test
`(c.pos - p).mag2 < radius²`; points at exactly the boundary distance are
not contained, and the circle of radius 2 at the origin contains `(1,0)`
but not the boundary point `(2,0)`. -/
theorem contains_circle_point_strict :
    (∀ (c : circle) (p : vec2),
      containsCircleVec c p = true ↔ (c.pos.sub p).mag2 < c.radius * c.radius) ∧
    (∀ (c : circle) (p : vec2),
      (c.pos.sub p).mag2 = c.radius * c.radius → containsCircleVec c p = false) ∧
    containsCircleVec ⟨⟨0, 0⟩, 2⟩ ⟨1, 0⟩ = true ∧
    containsCircleVec ⟨⟨0, 0⟩, 2⟩ ⟨2, 0⟩ = false := by
  refine ⟨?_, ?_, ?_, ?_⟩
  · intro c p
    simp [containsCircleVec]
  · intro c p h
    simp [containsCircleVec, h]
  · norm_num [containsCircleVec, vec2.sub, vec2.mag2]
  · norm_num [containsCircleVec, vec2.sub, vec2.mag2]

theorem contains_circle_point_strict_witness :
    vec2.mag2 (vec2.sub ⟨0, 0⟩ ⟨2, 0⟩) = 2 * 2 ∧
    containsCircleVec ⟨⟨0, 0⟩, 2⟩ ⟨2, 0⟩ = false :=
  ⟨by norm_num [vec2.sub, vec2.mag2],
    contains_circle_point_strict.2.1 ⟨⟨0, 0⟩, 2⟩ ⟨2, 0⟩
      (by norm_num [vec2.sub, vec2.mag2])⟩

/-- Claim C9: for a segment of nonzero length, `closest(line, p)` evaluates
the parametric point at the projection parameter clamped into `[0,1]` — the
result is always `l.point t` for some `t ∈ [0,1]`, never an extrapolation —
and on the horizontal segment `(0,0)-(10,0)` the points `(5,5)` and `(-5,5)`
map to `(5,0)` and `(0,0)` respectively. -/
theorem closest_line_clamped :
    (∀ (l : line) (p : vec2), l.length2 ≠ 0 →
      ∃ t : ℚ, 0 ≤ t ∧ t ≤ 1 ∧ closestLineVec l p = l.point t) ∧
    closestLineVec ⟨⟨0, 0⟩, ⟨10, 0⟩⟩ ⟨5, 5⟩ = ⟨5, 0⟩ ∧
    closestLineVec ⟨⟨0, 0⟩, ⟨10, 0⟩⟩ ⟨-5, 5⟩ = ⟨0, 0⟩ := by
  refine ⟨?_, ?_, ?_⟩
  · intro l p _
    refine ⟨clampq ((l.vec.dot (p.sub l.start)) / l.length2) 0 1,
      (clampq_mem _ 0 1 (by norm_num)).1, (clampq_mem _ 0 1 (by norm_num)).2, rfl⟩
  · norm_num [closestLineVec, clampq, line.vec, line.length2, vec2.dot, vec2.sub,
      vec2.add, vec2.smul, vec2.mag2]
  · norm_num [closestLineVec, clampq, line.vec, line.length2, vec2.dot, vec2.sub,
      vec2.add, vec2.smul, vec2.mag2]

theorem closest_line_clamped_witness :
    line.length2 ⟨⟨0, 0⟩, ⟨10, 0⟩⟩ ≠ 0 ∧
    ∃ t : ℚ, 0 ≤ t ∧ t ≤ 1 ∧
      closestLineVec ⟨⟨0, 0⟩, ⟨10, 0⟩⟩ ⟨5, 5⟩ = line.point ⟨⟨0, 0⟩, ⟨10, 0⟩⟩ t :=
  ⟨by norm_num [line.length2, line.vec, vec2.sub, vec2.mag2],
    closest_line_clamped.1 ⟨⟨0, 0⟩, ⟨10, 0⟩⟩ ⟨5, 5⟩
      (by norm_num [line.length2, line.vec, vec2.sub, vec2.mag2])⟩

/-- Claim C10 (counterexample): the interior point `(5,5)` of the rect
`(0,0)×(10,10)` is contained in the rect, yet `intersects(rect, point)`
returns the empty set, because the code only tests the four boundary edges. -/
theorem intersects_rect_point_interior_cex :
    containsRectVec ⟨⟨0, 0⟩, ⟨10, 10⟩⟩ ⟨5, 5⟩ = true ∧
    intersectsRectVec ⟨⟨0, 0⟩, ⟨10, 10⟩⟩ ⟨5, 5⟩ = [] := by
  constructor
  · norm_num [containsRectVec]
  · norm_num [intersectsRectVec, containsLineVec, rect.top, rect.bottom, rect.left,
      rect.right, line.vec, line.length2, vec2.dot, vec2.sub, vec2.add, vec2.mag2, eps]

/-- Claim C10 (amended): `intersects(rect, p)` returns the singleton `{p}`
exactly when `p` lies on one of the rect's four boundary edge segments
(`contains(edge, p)` within the ε collinearity tolerance); points merely
contained in the rect's interior yield the empty set. -/
theorem intersects_rect_point_boundary (r : rect) (p : vec2) :
    intersectsRectVec r p = [p] ↔
      (containsLineVec r.top p = true ∨ containsLineVec r.bottom p = true ∨
       containsLineVec r.left p = true ∨ containsLineVec r.right p = true) := by
  unfold intersectsRectVec
  split_ifs with h
  · simp only [true_iff]
    simpa [Bool.or_eq_true, or_assoc] using h
  · constructor
    · intro hc
      exact absurd hc (by simp)
    · intro hc
      exact absurd (by simpa [Bool.or_eq_true, or_assoc] using hc) h

end jnf.geometry
